import Mathlib

/-!
Verification of the advertisement REST server (`server.py`).

The server is a Flask application exposing CRUD on a single `advertisements`
table.  We shallowly embed the request pipeline:

* JSON values (`JValue`) as received by `request.json`;
* the pydantic v1 models `CreateAd` / `PatchAd` and `validate` (pydantic v1
  coerces numbers, booleans and bytes to `str`; `Optional[str]` fields default
  to `None`; `.dict()` returns every declared field);
* the SQLAlchemy-backed store as a list of records plus an id sequence
  (`DB`); the `UNIQUE` constraint on `ad_name` raised by the database is
  modelled as an uncaught failure (`Response.serverError`), since `server.py`
  never catches `IntegrityError`;
* the four `AdView` handlers and the `HttpError` → JSON error handler.

Timestamps are abstracted as naturals; `datetime.isoformat` is modelled as an
injective rendering to a string, which is all the handlers rely on.
-/

/-- A JSON value, as decoded by Flask's `request.json` into Python data. -/
inductive JValue where
  | str (s : String)
  | num (n : Int)
  | bool (b : Bool)
  | null
  | arr (elems : List JValue)
  | obj (fields : List (String × JValue))

/-- A Python value occurring in a validated pydantic `.dict()`:
either a string or `None`. -/
inductive PyValue where
  | str (s : String)
  | null
deriving DecidableEq

/-- One entry of `pydantic.ValidationError.errors()`:
location, message and error type. -/
structure FieldError where
  loc : String
  msg : String
  ty : String
deriving DecidableEq

/-- An HTTP outcome: a JSON response with a status code, or an uncaught
Python exception surfacing as Flask's generic 500 page. -/
inductive Response where
  | json (status : Nat) (body : JValue)
  | serverError

/-- The HTTP status code of a `Response` (Flask renders an uncaught
exception as 500 Internal Server Error). -/
def Response.statusCode : Response → Nat
  | .json s _ => s
  | .serverError => 500

/-- A row of the `advertisements` table. -/
structure Ad where
  id : Nat
  ad_name : String
  ad_body : String
  ad_owner : String
  created_at : Nat
deriving DecidableEq

/-- The database: stored rows plus the primary-key sequence. -/
structure DB where
  ads : List Ad
  nextId : Nat
deriving DecidableEq

/-- The freshly created database (`Base.metadata.create_all`):
no rows, serial ids starting at 1. -/
def emptyDB : DB := ⟨[], 1⟩

/-- Key lookup in a decoded JSON object.  Python's JSON decoder builds a
`dict`, so a repeated key keeps its last occurrence. -/
def jlookup : List (String × JValue) → String → Option JValue
  | [], _ => none
  | (k, v) :: rest, key =>
    match jlookup rest key with
    | some v' => some v'
    | none => if k == key then some v else none

/-- `JValue.isObj v` holds when `v` is a JSON object (a Python `dict`).
`validate(model, raw_data)` does `model(**raw_data)`, which raises an
uncaught `TypeError` on anything else. -/
def JValue.isObj : JValue → Bool
  | .obj _ => true
  | _ => false

/-- pydantic v1's `str_validator`: strings pass through, numbers and
booleans are stringified (`bool` is an `int` in Python, so `True`
becomes `"True"`), everything else is rejected. -/
def str_validator : JValue → Option String
  | .str s => some s
  | .num n => some (toString n)
  | .bool b => some (if b then "True" else "False")
  | _ => none

/-- Validation of one required `str` field of `CreateAd`. -/
def checkRequiredStr (raw : List (String × JValue)) (f : String) :
    Except FieldError String :=
  match jlookup raw f with
  | none => .error ⟨f, "field required", "value_error.missing"⟩
  | some JValue.null =>
      .error ⟨f, "none is not an allowed value", "type_error.none.not_allowed"⟩
  | some v =>
      match str_validator v with
      | some s => .ok s
      | none => .error ⟨f, "str type expected", "type_error.str"⟩

/-- Validation of one `Optional[str]` field of `PatchAd`: an absent key
defaults to `None`, `null` is allowed. -/
def checkOptionalStr (raw : List (String × JValue)) (f : String) :
    Except FieldError PyValue :=
  match jlookup raw f with
  | none => .ok PyValue.null
  | some JValue.null => .ok PyValue.null
  | some v =>
      match str_validator v with
      | some s => .ok (PyValue.str s)
      | none => .error ⟨f, "str type expected", "type_error.str"⟩

/-- The errors contributed by one field's validation result. -/
def errsOf {α : Type} : Except FieldError α → List FieldError
  | .error e => [e]
  | .ok _ => []

/-- The declared fields of both pydantic models, in declaration order. -/
def adFields : List String := ["ad_name", "ad_body", "ad_owner"]

/-- `validate(CreateAd, raw)`: all three fields are required strings; on
success `.dict()` holds exactly the three declared fields; on failure the
per-field errors are collected in declaration order. -/
def validateCreateAd (raw : List (String × JValue)) :
    Except (List FieldError) (List (String × PyValue)) :=
  match checkRequiredStr raw "ad_name", checkRequiredStr raw "ad_body",
        checkRequiredStr raw "ad_owner" with
  | .ok n, .ok b, .ok o =>
      .ok [("ad_name", PyValue.str n), ("ad_body", PyValue.str b),
           ("ad_owner", PyValue.str o)]
  | rn, rb, ro => .error (errsOf rn ++ errsOf rb ++ errsOf ro)

/-- `validate(PatchAd, raw)`: all three fields are `Optional[str]`; the
resulting `.dict()` holds every declared field, with `None` for the
absent ones. -/
def validatePatchAd (raw : List (String × JValue)) :
    Except (List FieldError) (List (String × PyValue)) :=
  match checkOptionalStr raw "ad_name", checkOptionalStr raw "ad_body",
        checkOptionalStr raw "ad_owner" with
  | .ok n, .ok b, .ok o =>
      .ok [("ad_name", n), ("ad_body", b), ("ad_owner", o)]
  | rn, rb, ro => .error (errsOf rn ++ errsOf rb ++ errsOf ro)

/-- Python's `dict.get(f)` on a validated `.dict()`: `None` when absent. -/
def dictGet (d : List (String × PyValue)) (f : String) : PyValue :=
  match d.find? (fun kv => kv.fst == f) with
  | some kv => kv.snd
  | none => PyValue.null

/-- Python truthiness of a validated value: `None` and `""` are falsy. -/
def truthy : PyValue → Bool
  | .str s => s != ""
  | .null => false

/-- The string content of a validated value (`""` for `None`; the
handlers only read it under a truthiness guard or after `CreateAd`
validation, where it is always a string). -/
def asStr : PyValue → String
  | .str s => s
  | .null => ""

/-- `if validated.get(f): ad.f = validated[f]` — apply a patch field only
when its value is truthy. -/
def applyField (cur : String) (v : PyValue) : String :=
  if truthy v then asStr v else cur

/-- Serialization of `error.errors()` performed by `jsonify`. -/
def errorsToJson (errs : List FieldError) : JValue :=
  .arr (errs.map fun e =>
    .obj [("loc", .arr [.str e.loc]), ("msg", .str e.msg),
          ("type", .str e.ty)])

/-- The `http_error_handler` body: `{'status': 'error', 'reason': …}`. -/
def errorEnvelope (reason : JValue) : JValue :=
  .obj [("status", .str "error"), ("reason", reason)]

/-- The `{'status': 'success'}` body returned by PATCH and DELETE. -/
def successBody : JValue := .obj [("status", .str "success")]

/-- The response produced by `http_error_handler` for
`HttpError(404, 'advertisement not found')` raised in `get_ad`. -/
def notFoundResponse : Response :=
  .json 404 (errorEnvelope (.str "advertisement not found"))

/-- `datetime.isoformat`, abstractly: render the timestamp as a string. -/
def isoformat (t : Nat) : String := toString t

/-- `session.query(Advertisement).get(ad_id)`: primary-key lookup. -/
def findAd (db : DB) (ad_id : Nat) : Option Ad :=
  db.ads.find? (fun a => a.id == ad_id)

/-- Whether an `UPDATE` that renames row `ad` to `newName` violates the
`UNIQUE` index on `ad_name`: the index entry is only rewritten when the
name actually changes, and it then collides with any other row holding
that name. -/
def nameConflict (db : DB) (ad : Ad) (newName : String) : Bool :=
  newName != ad.ad_name &&
    db.ads.any (fun a => !(a.id == ad.id) && a.ad_name == newName)

/-- `AdView.get`: fetch a row and serialize it, 404 when absent. -/
def getHandler (db : DB) (ad_id : Nat) : Response :=
  match findAd db ad_id with
  | none => notFoundResponse
  | some ad =>
      .json 200 (.obj [("ad_name", .str ad.ad_name),
                       ("ad_body", .str ad.ad_body),
                       ("ad_owner", .str ad.ad_owner),
                       ("created_at", .str (isoformat ad.created_at))])

/-- `AdView.post`: validate against `CreateAd`, insert, and answer with
`{'id': …, 'ad_name': …}`.  A duplicate `ad_name` makes the `INSERT`
raise `IntegrityError`, which `server.py` does not catch. -/
def postHandler (db : DB) (now : Nat) (body : JValue) : Response × DB :=
  match body with
  | .obj raw =>
    match validateCreateAd raw with
    | .error errs => (.json 400 (errorEnvelope (errorsToJson errs)), db)
    | .ok d =>
        let name := asStr (dictGet d "ad_name")
        if db.ads.any (fun a => a.ad_name == name) then
          (Response.serverError, db)
        else
          let ad : Ad := ⟨db.nextId, name, asStr (dictGet d "ad_body"),
                          asStr (dictGet d "ad_owner"), now⟩
          (.json 200 (.obj [("id", .num db.nextId), ("ad_name", .str name)]),
           ⟨db.ads ++ [ad], db.nextId + 1⟩)
  | _ => (Response.serverError, db)

/-- `AdView.patch`: validate against `PatchAd`, load the row (404 when
absent), write `ad_name` / `ad_body` only when truthy, commit. -/
def patchHandler (db : DB) (ad_id : Nat) (body : JValue) : Response × DB :=
  match body with
  | .obj raw =>
    match validatePatchAd raw with
    | .error errs => (.json 400 (errorEnvelope (errorsToJson errs)), db)
    | .ok d =>
      match findAd db ad_id with
      | none => (notFoundResponse, db)
      | some ad =>
          let updated : Ad :=
            { ad with ad_name := applyField ad.ad_name (dictGet d "ad_name"),
                      ad_body := applyField ad.ad_body (dictGet d "ad_body") }
          if nameConflict db ad updated.ad_name then
            (Response.serverError, db)
          else
            (.json 200 successBody,
             ⟨db.ads.map (fun a => if a.id == ad_id then updated else a),
              db.nextId⟩)
  | _ => (Response.serverError, db)

/-- `AdView.delete`: load the row (404 when absent) and delete it. -/
def deleteHandler (db : DB) (ad_id : Nat) : Response × DB :=
  match findAd db ad_id with
  | none => (notFoundResponse, db)
  | some _ =>
      (.json 200 successBody,
       ⟨db.ads.filter (fun a => !(a.id == ad_id)), db.nextId⟩)

/-- A one-row store used to instantiate the theorems:
the advertisement `{id: 1, ad_name: "x", ad_body: "y", ad_owner: "z"}`. -/
def sampleDB : DB := ⟨[⟨1, "x", "y", "z", 5⟩], 2⟩

/-- The create payload `{"ad_name": "x", "ad_body": "y", "ad_owner": "z"}`. -/
def dupPayload : JValue :=
  .obj [("ad_name", .str "x"), ("ad_body", .str "y"), ("ad_owner", .str "z")]

/-! ### List helper lemmas for the store operations -/

theorem map_replace_id (l : List Ad) (i : Nat) (upd : Ad)
    (h : ∀ a ∈ l, a.id ≠ i) :
    l.map (fun a => if a.id == i then upd else a) = l := by
  induction l with
  | nil => rfl
  | cons x xs ih =>
    have hx := h x (List.mem_cons_self x xs)
    simp only [List.map_cons, List.cons.injEq]
    refine ⟨by simp [hx], ih (fun a ha => h a (List.mem_cons_of_mem _ ha))⟩

theorem map_replace_self (l : List Ad) (i : Nat) (ad : Ad)
    (hfind : l.find? (fun a => a.id == i) = some ad)
    (hnd : (l.map Ad.id).Nodup) :
    l.map (fun a => if a.id == i then ad else a) = l := by
  induction l with
  | nil => simp [List.find?] at hfind
  | cons x xs ih =>
    simp only [List.map_cons, List.nodup_cons] at hnd
    rcases hnd with ⟨hx, hnd⟩
    by_cases hxi : x.id = i
    · have hax : ad = x := by
        rw [List.find?_cons_of_pos _ (by simp [hxi])] at hfind
        exact (Option.some.injEq _ _ ▸ hfind.symm)
      subst hax
      simp only [List.map_cons, List.cons.injEq]
      refine ⟨by simp [hxi], ?_⟩
      refine map_replace_id xs i ad ?_
      intro a ha hai
      exact hx (by rw [hxi, ← hai]; exact List.mem_map_of_mem _ ha)
    · rw [List.find?_cons_of_neg _ (by simp [hxi])] at hfind
      simp only [List.map_cons, List.cons.injEq]
      exact ⟨by simp [hxi], ih hfind hnd⟩

theorem find?_map_replace (l : List Ad) (i : Nat) (ad upd : Ad)
    (hfind : l.find? (fun a => a.id == i) = some ad)
    (hupd : upd.id = i) :
    (l.map (fun a => if a.id == i then upd else a)).find? (fun a => a.id == i)
      = some upd := by
  induction l with
  | nil => simp [List.find?] at hfind
  | cons x xs ih =>
    by_cases hxi : x.id = i
    · simp [List.find?, hxi, hupd]
    · rw [List.find?_cons_of_neg _ (by simp [hxi])] at hfind
      simp only [List.map_cons]
      rw [if_neg (by simp [hxi])]
      rw [List.find?_cons_of_neg _ (by simp [hxi])]
      exact ih hfind

theorem mem_map_replace (l : List Ad) (i : Nat) (upd a : Ad)
    (ha : a ∈ l) (hne : a.id ≠ i) :
    a ∈ l.map (fun b => if b.id == i then upd else b) := by
  have h2 := List.mem_map_of_mem (fun b => if b.id == i then upd else b) ha
  simpa [hne] using h2

theorem find?_filter_ne (l : List Ad) (i : Nat) :
    (l.filter (fun a => !(a.id == i))).find? (fun a => a.id == i) = none := by
  rw [List.find?_eq_none]
  intro x hx
  have := (List.mem_filter.mp hx).2
  simpa using this

theorem find?_append_fresh (l : List Ad) (x : Ad) (i : Nat)
    (h : ∀ a ∈ l, a.id ≠ i) (hx : x.id = i) :
    (l ++ [x]).find? (fun a => a.id == i) = some x := by
  induction l with
  | nil => simp [List.find?, hx]
  | cons y ys ih =>
    have hy := h y (List.mem_cons_self y ys)
    rw [List.cons_append, List.find?_cons_of_neg _ (by simp [hy])]
    exact ih (fun a ha => h a (List.mem_cons_of_mem _ ha))

/-! ### The claims -/

/-- C1: for every valid create payload (a JSON object whose `ad_name`,
`ad_body`, `ad_owner` are strings, with `ad_name` not already stored and the
next serial id unused), `POST /ads/` answers 200 with the numeric new id and
the payload's `ad_name`, and a subsequent `GET /ads/{id}` on that id returns
the stored record with the payload's `ad_name`, `ad_body` and `ad_owner`. -/
theorem post_create_then_get (db : DB) (now : Nat) (raw : List (String × JValue))
    (name bodyS owner : String)
    (hname : jlookup raw "ad_name" = some (.str name))
    (hbody : jlookup raw "ad_body" = some (.str bodyS))
    (howner : jlookup raw "ad_owner" = some (.str owner))
    (hfresh : ∀ a ∈ db.ads, a.ad_name ≠ name)
    (hids : ∀ a ∈ db.ads, a.id ≠ db.nextId) :
    (postHandler db now (.obj raw)).fst
      = .json 200 (.obj [("id", .num db.nextId), ("ad_name", .str name)]) ∧
    getHandler (postHandler db now (.obj raw)).snd db.nextId
      = .json 200 (.obj [("ad_name", .str name), ("ad_body", .str bodyS),
                         ("ad_owner", .str owner),
                         ("created_at", .str (isoformat now))]) := by
  have hn : checkRequiredStr raw "ad_name" = .ok name := by
    simp [checkRequiredStr, hname, str_validator]
  have hb : checkRequiredStr raw "ad_body" = .ok bodyS := by
    simp [checkRequiredStr, hbody, str_validator]
  have ho : checkRequiredStr raw "ad_owner" = .ok owner := by
    simp [checkRequiredStr, howner, str_validator]
  have hval : validateCreateAd raw = .ok
      [("ad_name", PyValue.str name), ("ad_body", PyValue.str bodyS),
       ("ad_owner", PyValue.str owner)] := by
    simp [validateCreateAd, hn, hb, ho]
  have hany : db.ads.any (fun a => a.ad_name == name) = false := by
    rw [List.any_eq_false]
    intro a ha
    simpa using hfresh a ha
  have hpost : postHandler db now (.obj raw)
      = (.json 200 (.obj [("id", .num db.nextId), ("ad_name", .str name)]),
         ⟨db.ads ++ [⟨db.nextId, name, bodyS, owner, now⟩], db.nextId + 1⟩) := by
    simp only [postHandler, hval]
    simp [dictGet, asStr, hany]
  refine ⟨by rw [hpost], ?_⟩
  rw [hpost]
  simp only [getHandler, findAd]
  rw [find?_append_fresh db.ads ⟨db.nextId, name, bodyS, owner, now⟩ db.nextId hids rfl]

/-- Witness for C1: creating `{"ad_name":"x","ad_body":"y","ad_owner":"z"}`
in the empty store yields id 1 and `GET /ads/1` echoes the three fields. -/
theorem post_create_then_get_witness :
    (postHandler emptyDB 7 (.obj [("ad_name", .str "x"), ("ad_body", .str "y"),
        ("ad_owner", .str "z")])).fst
      = .json 200 (.obj [("id", .num 1), ("ad_name", .str "x")]) ∧
    getHandler (postHandler emptyDB 7 (.obj [("ad_name", .str "x"),
        ("ad_body", .str "y"), ("ad_owner", .str "z")])).snd 1
      = .json 200 (.obj [("ad_name", .str "x"), ("ad_body", .str "y"),
                         ("ad_owner", .str "z"), ("created_at", .str (isoformat 7))]) :=
  post_create_then_get emptyDB 7
    [("ad_name", .str "x"), ("ad_body", .str "y"), ("ad_owner", .str "z")]
    "x" "y" "z" rfl rfl rfl (by decide) (by decide)

/-- C2: a PATCH on an existing id with a body passing `PatchAd` validation
(and whose effective new name does not collide with another row) answers
200 `{status: "success"}`; in the stored record only `ad_name` and `ad_body`
change — each is overwritten exactly when supplied with a truthy value —
while `ad_owner` (even when supplied and validated), `created_at` and `id`
are unchanged, and all other rows are untouched. -/
theorem patch_writes_only_name_and_body (db : DB) (i : Nat)
    (raw : List (String × JValue)) (d : List (String × PyValue)) (ad : Ad)
    (hfind : findAd db i = some ad)
    (hval : validatePatchAd raw = .ok d)
    (hconf : nameConflict db ad (applyField ad.ad_name (dictGet d "ad_name")) = false) :
    (patchHandler db i (.obj raw)).fst = .json 200 successBody ∧
    (∃ ad2, findAd (patchHandler db i (.obj raw)).snd i = some ad2 ∧
      ad2.id = ad.id ∧ ad2.ad_owner = ad.ad_owner ∧ ad2.created_at = ad.created_at ∧
      ad2.ad_name = applyField ad.ad_name (dictGet d "ad_name") ∧
      ad2.ad_body = applyField ad.ad_body (dictGet d "ad_body")) ∧
    ∀ a ∈ db.ads, a.id ≠ i → a ∈ (patchHandler db i (.obj raw)).snd.ads := by
  have hfind' : db.ads.find? (fun a => a.id == i) = some ad := hfind
  have hadid : ad.id = i := by
    have := List.find?_some hfind'
    simpa using this
  have hpatch : patchHandler db i (.obj raw)
      = (.json 200 successBody,
         ⟨db.ads.map (fun a => if a.id == i then
            ({ ad with ad_name := applyField ad.ad_name (dictGet d "ad_name"),
                       ad_body := applyField ad.ad_body (dictGet d "ad_body") } : Ad)
            else a), db.nextId⟩) := by
    simp only [patchHandler, hval, findAd, hfind', hconf, Bool.false_eq_true, if_false]
  refine ⟨by rw [hpatch], ⟨{ ad with
      ad_name := applyField ad.ad_name (dictGet d "ad_name"),
      ad_body := applyField ad.ad_body (dictGet d "ad_body") }, ?_, rfl, rfl, rfl, rfl, rfl⟩, ?_⟩
  · rw [hpatch]
    exact find?_map_replace db.ads i ad _ hfind' hadid
  · intro a ha hne
    rw [hpatch]
    exact mem_map_replace db.ads i _ a ha hne

/-- Witness for C2: patching ad 1 of the sample store with
`{"ad_name": "n2", "ad_owner": "o2"}` renames it to "n2" but leaves
`ad_owner = "z"`, `ad_body = "y"`, `created_at` and `id` unchanged. -/
theorem patch_writes_only_name_and_body_witness :
    (patchHandler sampleDB 1 (.obj [("ad_name", .str "n2"), ("ad_owner", .str "o2")])).fst
      = .json 200 successBody ∧
    (∃ ad2, findAd (patchHandler sampleDB 1
        (.obj [("ad_name", .str "n2"), ("ad_owner", .str "o2")])).snd 1 = some ad2 ∧
      ad2.id = 1 ∧ ad2.ad_owner = "z" ∧ ad2.created_at = 5 ∧
      ad2.ad_name = "n2" ∧ ad2.ad_body = "y") ∧
    ∀ a ∈ sampleDB.ads, a.id ≠ 1 →
      a ∈ (patchHandler sampleDB 1
        (.obj [("ad_name", .str "n2"), ("ad_owner", .str "o2")])).snd.ads :=
  patch_writes_only_name_and_body sampleDB 1
    [("ad_name", .str "n2"), ("ad_owner", .str "o2")]
    [("ad_name", PyValue.str "n2"), ("ad_body", PyValue.null),
     ("ad_owner", PyValue.str "o2")] ⟨1, "x", "y", "z", 5⟩ rfl rfl rfl

/-- C3: creating the same `ad_name` twice.  The store's UNIQUE constraint
rejects the second INSERT, but `server.py` never catches `IntegrityError`,
so the second request surfaces as an unhandled 500 server error (and the
store keeps only the first row) rather than the 4xx the claim requires. -/
theorem duplicate_create_surfaces_server_error :
    (postHandler emptyDB 0 dupPayload).fst.statusCode = 200 ∧
    (postHandler (postHandler emptyDB 0 dupPayload).snd 1 dupPayload).fst
      = Response.serverError ∧
    (postHandler (postHandler emptyDB 0 dupPayload).snd 1 dupPayload).fst.statusCode
      = 500 ∧
    (postHandler (postHandler emptyDB 0 dupPayload).snd 1 dupPayload).snd
      = (postHandler emptyDB 0 dupPayload).snd :=
  ⟨rfl, rfl, rfl, rfl⟩

/-- C4: on an id that references no stored advertisement, GET, PATCH (with
a body passing `PatchAd` validation) and DELETE all answer 404 with body
`{status: "error", reason: "advertisement not found"}`. -/
theorem missing_id_responses_404 (db : DB) (i : Nat)
    (raw : List (String × JValue)) (d : List (String × PyValue))
    (hfind : findAd db i = none)
    (hval : validatePatchAd raw = .ok d) :
    getHandler db i
      = .json 404 (.obj [("status", .str "error"),
                         ("reason", .str "advertisement not found")]) ∧
    patchHandler db i (.obj raw)
      = (.json 404 (.obj [("status", .str "error"),
                          ("reason", .str "advertisement not found")]), db) ∧
    deleteHandler db i
      = (.json 404 (.obj [("status", .str "error"),
                          ("reason", .str "advertisement not found")]), db) := by
  refine ⟨?_, ?_, ?_⟩ <;>
    simp [getHandler, patchHandler, deleteHandler, hfind, hval,
          notFoundResponse, errorEnvelope]

/-- Witness for C4: id 1 in the empty store. -/
theorem missing_id_responses_404_witness :
    findAd emptyDB 1 = none ∧
    validatePatchAd [] = .ok [("ad_name", PyValue.null), ("ad_body", PyValue.null),
                              ("ad_owner", PyValue.null)] ∧
    getHandler emptyDB 1
      = .json 404 (.obj [("status", .str "error"),
                         ("reason", .str "advertisement not found")]) := by
  refine ⟨rfl, rfl, ?_⟩
  exact (missing_id_responses_404 emptyDB 1 []
      [("ad_name", PyValue.null), ("ad_body", PyValue.null),
       ("ad_owner", PyValue.null)] rfl rfl).1

/-- C5 counterexample: the claim demands 400 for any non-string value of a
recognized field, but pydantic v1 coerces the number 123 to the string
"123", so `POST /ads/` with `{"ad_name": 123, "ad_body": "y",
"ad_owner": "z"}` succeeds with 200, not 400. -/
theorem numeric_create_accepted :
    (postHandler emptyDB 7 (.obj [("ad_name", .num 123), ("ad_body", .str "y"),
        ("ad_owner", .str "z")])).fst
      = .json 200 (.obj [("id", .num 1), ("ad_name", .str "123")]) ∧
    (postHandler emptyDB 7 (.obj [("ad_name", .num 123), ("ad_body", .str "y"),
        ("ad_owner", .str "z")])).fst.statusCode ≠ 400 :=
  ⟨rfl, by decide⟩

/-- Helper for C5: if any required field of `CreateAd` produces an error,
the whole validation fails and that error is in the collected list. -/
theorem validateCreateAd_error_of_field (raw : List (String × JValue))
    (f : String) (e : FieldError)
    (hf : f ∈ adFields) (he : checkRequiredStr raw f = .error e) :
    ∃ errs, validateCreateAd raw = .error errs ∧ e ∈ errs := by
  simp only [adFields, List.mem_cons, List.not_mem_nil, or_false] at hf
  cases hn : checkRequiredStr raw "ad_name" <;>
    cases hb : checkRequiredStr raw "ad_body" <;>
      cases ho : checkRequiredStr raw "ad_owner" <;>
        rcases hf with rfl | rfl | rfl <;>
          simp_all [validateCreateAd, errsOf]

/-- C5 (amended): a create payload that misses a required field, or maps a
required field to `null`, an array or an object (the values pydantic v1
cannot coerce to `str`) is rejected with 400 and an error list of length at
least 1; numeric and boolean values, by contrast, are coerced and accepted
(see the counterexample). -/
theorem create_missing_or_noncoercible_400 (raw : List (String × JValue))
    (f : String) (hf : f ∈ adFields)
    (hbad : jlookup raw f = none ∨ jlookup raw f = some JValue.null ∨
            ∃ v, jlookup raw f = some v ∧ str_validator v = none) :
    ∃ errs, validateCreateAd raw = .error errs ∧ 1 ≤ errs.length ∧
      ∀ db now, postHandler db now (.obj raw)
        = (.json 400 (errorEnvelope (errorsToJson errs)), db) := by
  have herr : ∃ e, checkRequiredStr raw f = .error e := by
    rcases hbad with h | h | ⟨v, hv, hsv⟩
    · exact ⟨⟨f, "field required", "value_error.missing"⟩,
        by simp [checkRequiredStr, h]⟩
    · exact ⟨⟨f, "none is not an allowed value", "type_error.none.not_allowed"⟩,
        by simp [checkRequiredStr, h]⟩
    · cases v with
      | str s => simp [str_validator] at hsv
      | num n => simp [str_validator] at hsv
      | bool b => simp [str_validator] at hsv
      | null => exact ⟨⟨f, "none is not an allowed value", "type_error.none.not_allowed"⟩,
          by simp [checkRequiredStr, hv]⟩
      | arr l => exact ⟨⟨f, "str type expected", "type_error.str"⟩,
          by simp [checkRequiredStr, hv, str_validator]⟩
      | obj l => exact ⟨⟨f, "str type expected", "type_error.str"⟩,
          by simp [checkRequiredStr, hv, str_validator]⟩
  obtain ⟨e, he⟩ := herr
  obtain ⟨errs, hverrs, hmem⟩ := validateCreateAd_error_of_field raw f e hf he
  refine ⟨errs, hverrs, ?_, ?_⟩
  · rcases errs with _ | ⟨e0, rest⟩
    · simp at hmem
    · simp
  · intro db now
    simp only [postHandler, hverrs]

/-- Witness for C5 (amended): the payload `{"ad_name": []}` misses
`ad_body`, so the create is rejected with 400 and a non-empty error list. -/
theorem create_missing_or_noncoercible_400_witness :
    ∃ errs, validateCreateAd [("ad_name", JValue.arr [])] = .error errs ∧
      1 ≤ errs.length ∧
      ∀ db now, postHandler db now (.obj [("ad_name", JValue.arr [])])
        = (.json 400 (errorEnvelope (errorsToJson errs)), db) :=
  create_missing_or_noncoercible_400 [("ad_name", JValue.arr [])] "ad_body"
    (by decide) (Or.inl rfl)

/-- C6: deleting an existing id answers 200 `{status: "success"}`, removes
every row with that id from the store, and a subsequent GET on the same id
answers 404 `{status: "error", reason: "advertisement not found"}`. -/
theorem delete_then_get_404 (db : DB) (i : Nat) (ad : Ad)
    (hfind : findAd db i = some ad) :
    (deleteHandler db i).fst = .json 200 successBody ∧
    (∀ a ∈ (deleteHandler db i).snd.ads, a.id ≠ i) ∧
    getHandler (deleteHandler db i).snd i
      = .json 404 (.obj [("status", .str "error"),
                         ("reason", .str "advertisement not found")]) := by
  have hfind' : db.ads.find? (fun a => a.id == i) = some ad := hfind
  refine ⟨?_, ?_, ?_⟩
  · simp [deleteHandler, findAd, hfind']
  · intro a ha
    simp only [deleteHandler, findAd, hfind'] at ha
    have := (List.mem_filter.mp ha).2
    simpa using this
  · simp only [deleteHandler, getHandler, findAd, hfind']
    rw [find?_filter_ne]
    rfl

/-- Witness for C6: deleting ad 1 of the sample store. -/
theorem delete_then_get_404_witness :
    findAd sampleDB 1 = some ⟨1, "x", "y", "z", 5⟩ ∧
    (deleteHandler sampleDB 1).fst = .json 200 successBody ∧
    getHandler (deleteHandler sampleDB 1).snd 1
      = .json 404 (.obj [("status", .str "error"),
                         ("reason", .str "advertisement not found")]) := by
  refine ⟨rfl, ?_, ?_⟩
  · exact (delete_then_get_404 sampleDB 1 ⟨1, "x", "y", "z", 5⟩ rfl).1
  · exact (delete_then_get_404 sampleDB 1 ⟨1, "x", "y", "z", 5⟩ rfl).2.2

/-- C7 counterexample: the claim says fields absent from the input are
absent from the validator's result, but `PatchAd(...).dict()` keeps every
declared field: validating the empty object yields a dict whose keys are
all three recognized fields, each mapped to `None`. -/
theorem patch_validate_keeps_absent_fields :
    jlookup [] "ad_name" = none ∧
    validatePatchAd [] = .ok [("ad_name", PyValue.null), ("ad_body", PyValue.null),
                              ("ad_owner", PyValue.null)] ∧
    [("ad_name", PyValue.null), ("ad_body", PyValue.null),
     ("ad_owner", PyValue.null)].map Prod.fst = adFields :=
  ⟨rfl, rfl, rfl⟩

/-- C7 (amended): on success the `PatchAd` validator returns a dict whose
keys are exactly the three recognized fields in declaration order —
so unrecognized fields are dropped — and each key holds that field's
validated value: the (coerced) string when present, `None` when the field
is absent or null in the input (absent fields are present as `None`, not
absent). -/
theorem validatePatchAd_result_fields (raw : List (String × JValue))
    (d : List (String × PyValue))
    (hok : validatePatchAd raw = .ok d) :
    d.map Prod.fst = adFields ∧
    ∀ f ∈ adFields, checkOptionalStr raw f = .ok (dictGet d f) := by
  cases hn : checkOptionalStr raw "ad_name" with
  | error e => simp_all [validatePatchAd]
  | ok n =>
    cases hb : checkOptionalStr raw "ad_body" with
    | error e => simp_all [validatePatchAd]
    | ok b =>
      cases ho : checkOptionalStr raw "ad_owner" with
      | error e => simp_all [validatePatchAd]
      | ok o =>
        have hd : d = [("ad_name", n), ("ad_body", b), ("ad_owner", o)] := by
          simp only [validatePatchAd, hn, hb, ho, Except.ok.injEq] at hok
          exact hok.symm
        subst hd
        refine ⟨rfl, ?_⟩
        intro f hf
        simp only [adFields, List.mem_cons, List.not_mem_nil, or_false] at hf
        rcases hf with rfl | rfl | rfl
        · simpa [dictGet] using hn
        · simpa [dictGet] using hb
        · simpa [dictGet] using ho

/-- Witness for C7 (amended): `{"ad_name": "x", "junk": 1}` validates to a
dict with exactly the three recognized keys; `junk` is dropped and the
absent `ad_body`, `ad_owner` are present as `None`. -/
theorem validatePatchAd_result_fields_witness :
    validatePatchAd [("ad_name", .str "x"), ("junk", .num 1)]
      = .ok [("ad_name", PyValue.str "x"), ("ad_body", PyValue.null),
             ("ad_owner", PyValue.null)] ∧
    ([("ad_name", PyValue.str "x"), ("ad_body", PyValue.null),
      ("ad_owner", PyValue.null)].map Prod.fst = adFields ∧
     ∀ f ∈ adFields, checkOptionalStr [("ad_name", .str "x"), ("junk", .num 1)] f
       = .ok (dictGet [("ad_name", PyValue.str "x"), ("ad_body", PyValue.null),
                       ("ad_owner", PyValue.null)] f)) :=
  ⟨rfl, validatePatchAd_result_fields [("ad_name", .str "x"), ("junk", .num 1)]
    [("ad_name", PyValue.str "x"), ("ad_body", PyValue.null),
     ("ad_owner", PyValue.null)] rfl⟩

/-- C8 counterexample: the claim demands 400 for a non-object body, but
`POST /ads/` with the JSON array `[]` makes `CreateAd(**raw_data)` raise an
uncaught `TypeError`: the response is the generic 500 server error, not a
400 with an error list. -/
theorem array_body_not_400 :
    (postHandler emptyDB 0 (.arr [])).fst = Response.serverError ∧
    (postHandler emptyDB 0 (.arr [])).fst.statusCode = 500 ∧
    (postHandler emptyDB 0 (.arr [])).fst.statusCode ≠ 400 :=
  ⟨rfl, rfl, by decide⟩

/-- C8 (amended): a request body that is not a JSON object never reaches
pydantic validation: `model(**raw_data)` raises an uncaught `TypeError`, so
POST and PATCH surface the generic 500 server error and leave the store
unchanged, instead of answering 400 with an error list. -/
theorem nonobject_body_uncaught (db : DB) (now i : Nat) (v : JValue)
    (h : v.isObj = false) :
    postHandler db now v = (Response.serverError, db) ∧
    patchHandler db i v = (Response.serverError, db) := by
  cases v <;> simp_all [JValue.isObj, postHandler, patchHandler]

/-- Witness for C8 (amended): the array body `[]` for POST and the number
body `3` for PATCH. -/
theorem nonobject_body_uncaught_witness :
    JValue.isObj (.arr []) = false ∧
    postHandler emptyDB 0 (.arr []) = (Response.serverError, emptyDB) ∧
    patchHandler emptyDB 0 (.num 3) = (Response.serverError, emptyDB) := by
  refine ⟨rfl, ?_, ?_⟩
  · exact (nonobject_body_uncaught emptyDB 0 0 (.arr []) rfl).1
  · exact (nonobject_body_uncaught emptyDB 0 0 (.num 3) rfl).2

/-- C9: a PATCH on an existing id whose body maps `ad_name` (or `ad_body`)
to the empty string leaves the store unchanged and still answers 200
`{status: "success"}`: the handler applies a field only when its value is
truthy, and `""` is falsy in Python. -/
theorem patch_empty_string_ignored (db : DB) (i : Nat) (ad : Ad)
    (hfind : findAd db i = some ad)
    (hnd : (db.ads.map Ad.id).Nodup) :
    patchHandler db i (.obj [("ad_name", .str "")]) = (.json 200 successBody, db) ∧
    patchHandler db i (.obj [("ad_body", .str "")]) = (.json 200 successBody, db) := by
  have hfind' : db.ads.find? (fun a => a.id == i) = some ad := hfind
  have heta : ({ ad with ad_name := ad.ad_name, ad_body := ad.ad_body } : Ad) = ad := rfl
  constructor
  · have hval : validatePatchAd [("ad_name", .str "")] = .ok
        [("ad_name", PyValue.str ""), ("ad_body", PyValue.null),
         ("ad_owner", PyValue.null)] := rfl
    have hg1 : dictGet [("ad_name", PyValue.str ""), ("ad_body", PyValue.null),
        ("ad_owner", PyValue.null)] "ad_name" = PyValue.str "" := rfl
    have hg2 : dictGet [("ad_name", PyValue.str ""), ("ad_body", PyValue.null),
        ("ad_owner", PyValue.null)] "ad_body" = PyValue.null := rfl
    simp only [patchHandler, hval, findAd, hfind', hg1, hg2, applyField, truthy,
               bne_self_eq_false, Bool.false_eq_true, if_false]
    rw [heta]
    simp only [nameConflict, bne_self_eq_false, Bool.false_and, Bool.false_eq_true, if_false]
    rw [map_replace_self db.ads i ad hfind' hnd]
  · have hval : validatePatchAd [("ad_body", .str "")] = .ok
        [("ad_name", PyValue.null), ("ad_body", PyValue.str ""),
         ("ad_owner", PyValue.null)] := rfl
    have hg1 : dictGet [("ad_name", PyValue.null), ("ad_body", PyValue.str ""),
        ("ad_owner", PyValue.null)] "ad_name" = PyValue.null := rfl
    have hg2 : dictGet [("ad_name", PyValue.null), ("ad_body", PyValue.str ""),
        ("ad_owner", PyValue.null)] "ad_body" = PyValue.str "" := rfl
    simp only [patchHandler, hval, findAd, hfind', hg1, hg2, applyField, truthy,
               bne_self_eq_false, Bool.false_eq_true, if_false]
    rw [heta]
    simp only [nameConflict, bne_self_eq_false, Bool.false_and, Bool.false_eq_true, if_false]
    rw [map_replace_self db.ads i ad hfind' hnd]

/-- Witness for C9: patching ad 1 of the sample store with `{"ad_name": ""}`
changes nothing and answers success. -/
theorem patch_empty_string_ignored_witness :
    findAd sampleDB 1 = some ⟨1, "x", "y", "z", 5⟩ ∧
    patchHandler sampleDB 1 (.obj [("ad_name", .str "")])
      = (.json 200 successBody, sampleDB) := by
  refine ⟨rfl, ?_⟩
  exact (patch_empty_string_ignored sampleDB 1 ⟨1, "x", "y", "z", 5⟩ rfl (by decide)).1

/-- C10: a PATCH with the empty object body on an existing id is an
identity operation: it answers 200 `{status: "success"}` and the database
(every field of every record, and the id sequence) is unchanged. -/
theorem patch_empty_object_identity (db : DB) (i : Nat) (ad : Ad)
    (hfind : findAd db i = some ad)
    (hnd : (db.ads.map Ad.id).Nodup) :
    patchHandler db i (.obj []) = (.json 200 successBody, db) := by
  have hfind' : db.ads.find? (fun a => a.id == i) = some ad := hfind
  have hval : validatePatchAd [] = .ok
      [("ad_name", PyValue.null), ("ad_body", PyValue.null),
       ("ad_owner", PyValue.null)] := rfl
  have hg1 : dictGet [("ad_name", PyValue.null), ("ad_body", PyValue.null),
      ("ad_owner", PyValue.null)] "ad_name" = PyValue.null := rfl
  have hg2 : dictGet [("ad_name", PyValue.null), ("ad_body", PyValue.null),
      ("ad_owner", PyValue.null)] "ad_body" = PyValue.null := rfl
  simp only [patchHandler, hval, findAd, hfind', hg1, hg2, applyField, truthy,
             Bool.false_eq_true, if_false]
  have heta : ({ ad with ad_name := ad.ad_name, ad_body := ad.ad_body } : Ad) = ad := rfl
  rw [heta]
  simp only [nameConflict, bne_self_eq_false, Bool.false_and, Bool.false_eq_true, if_false]
  rw [map_replace_self db.ads i ad hfind' hnd]

/-- Witness for C10: the empty-object patch of ad 1 in the sample store. -/
theorem patch_empty_object_identity_witness :
    findAd sampleDB 1 = some ⟨1, "x", "y", "z", 5⟩ ∧
    patchHandler sampleDB 1 (.obj []) = (.json 200 successBody, sampleDB) := by
  refine ⟨rfl, ?_⟩
  exact patch_empty_object_identity sampleDB 1 ⟨1, "x", "y", "z", 5⟩ rfl (by decide)
